import Mathlib

/-!
Verification of the samsung_daily_image repository against its
natural-language specification.

The Python sources are shallowly embedded: pure helpers become Lean
functions over `Nat` / `Int` / `ℚ` / `String`; calls into third-party
libraries (PIL, samsungtvws, the OS) become explicit outcome fields of an
environment record, and control flow that reacts to exceptions is
translated into case analysis on those outcomes.
-/

/- ------------------------------------------------------------------
   generate_image.py: HolidayConfig.is_active (lines 20-53)
   ------------------------------------------------------------------ -/

/-- `HolidayConfig` from generate_image.py (the fields that drive
`is_active`; the subject list, prompt modifier and palette play no role
in the date-range test). -/
structure HolidayConfig where
  name : String
  start_month : Nat
  start_day : Nat
  end_month : Nat
  end_day : Nat
deriving Repr, DecidableEq

/-- Embedding of `HolidayConfig.is_active(self, date)`.  A `datetime`
enters only through `date.month` and `date.day`, so the embedding takes
the month and day directly.  Branch for branch from the source:
the wrap-around arm compares `date.day >= self.start_day` both when
`date.month > self.start_month` and when they are equal. -/
def HolidayConfig.is_active (cfg : HolidayConfig) (month day : Nat) : Bool :=
  if cfg.start_month > cfg.end_month then
    -- It wraps around the year
    if month > cfg.start_month then decide (day ≥ cfg.start_day)
    else if month = cfg.start_month then decide (day ≥ cfg.start_day)
    else if month < cfg.end_month then true
    else if month = cfg.end_month then decide (day ≤ cfg.end_day)
    else false
  else
    -- Standard range within same year
    if month < cfg.start_month ∨ month > cfg.end_month then false
    else if month = cfg.start_month ∧ day < cfg.start_day then false
    else if month = cfg.end_month ∧ day > cfg.end_day then false
    else true

/-- (month, day) is on or after (m2, d2) in the calendar order. -/
def dateOnOrAfter (month day m2 d2 : Nat) : Bool :=
  decide (m2 < month ∨ (month = m2 ∧ d2 ≤ day))

/-- (month, day) is on or before (m2, d2) in the calendar order. -/
def dateOnOrBefore (month day m2 d2 : Nat) : Bool :=
  decide (month < m2 ∨ (month = m2 ∧ day ≤ d2))

/-- The spec side of claim C1, written from the spec sentence alone:
for a non-wrapping range a date is active iff its month/day falls within
[start, end] inclusive; for a wrapping range iff it falls on or after the
start or on or before the end. -/
def holidayActiveSpec (cfg : HolidayConfig) (month day : Nat) : Bool :=
  if cfg.start_month ≤ cfg.end_month then
    dateOnOrAfter month day cfg.start_month cfg.start_day &&
      dateOnOrBefore month day cfg.end_month cfg.end_day
  else
    dateOnOrAfter month day cfg.start_month cfg.start_day ||
      dateOnOrBefore month day cfg.end_month cfg.end_day

/-- A wrapping holiday configuration (Nov 15 through Jan 5) on which the
code and the spec disagree. -/
def novToJanConfig : HolidayConfig :=
  { name := "WrapTest", start_month := 11, start_day := 15,
    end_month := 1, end_day := 5 }

/-- C1: for the wrapping configuration Nov 15 - Jan 5 and the date
December 1, `is_active` returns False although December 1 is on or after
the November 15 start, because the `date.month > self.start_month` branch
compares the day of a later month against `start_day` instead of
returning True.  The code therefore diverges from the claimed (and
clearly intended) range-membership property. -/
theorem holiday_is_active_wrap_divergence :
    novToJanConfig.is_active 12 1 = false ∧
      holidayActiveSpec novToJanConfig 12 1 = true := by
  constructor
  · rfl
  · rfl

/- ------------------------------------------------------------------
   generate_image.py: ordinal suffix in _get_current_season_info
   (lines 282-290)
   ------------------------------------------------------------------ -/

/-- Python list indexing with a possibly negative index, as used by
the source expression `["st", "nd", "rd"][current_day % 10 - 1]`:
a negative index counts from the end, an out-of-range index raises
(modelled as `none`). -/
def pyIndex (xs : List String) (i : Int) : Option String :=
  if 0 ≤ i then xs.get? i.toNat
  else if 0 ≤ i + xs.length then xs.get? (i + xs.length).toNat
  else none

/-- Embedding of the ordinal-suffix computation of
`_get_current_season_info`:
day in [4,20] or [24,30] gives "th", otherwise the literal list
`["st", "nd", "rd"]` is indexed at `day % 10 - 1`. -/
def dayOrdinal (day : Nat) : Option String :=
  if (4 ≤ day ∧ day ≤ 20) ∨ (24 ≤ day ∧ day ≤ 30) then some "th"
  else pyIndex ["st", "nd", "rd"] ((day : Int) % 10 - 1)

/-- C3: the ordinal-suffix computation maps day 1 to "st", 2 to "nd",
3 to "rd", every day in [4,20] to "th", day 21 to "st", and every day in
[24,30] to "th", exactly as the spec states. -/
theorem dayOrdinal_matches_spec :
    dayOrdinal 1 = some "st" ∧ dayOrdinal 2 = some "nd" ∧
      dayOrdinal 3 = some "rd" ∧
      (∀ d, 4 ≤ d → d ≤ 20 → dayOrdinal d = some "th") ∧
      dayOrdinal 21 = some "st" ∧
      (∀ d, 24 ≤ d → d ≤ 30 → dayOrdinal d = some "th") := by
  refine ⟨rfl, rfl, rfl, ?_, rfl, ?_⟩
  · intro d h4 h20
    unfold dayOrdinal
    rw [if_pos (Or.inl ⟨h4, h20⟩)]
  · intro d h24 h30
    unfold dayOrdinal
    rw [if_pos (Or.inr ⟨h24, h30⟩)]

/-- Witness for C3: the two quantified conjuncts evaluated at days 5
and 25. -/
theorem dayOrdinal_matches_spec_witness :
    dayOrdinal 5 = some "th" ∧ dayOrdinal 25 = some "th" :=
  ⟨dayOrdinal_matches_spec.2.2.2.1 5 (by decide) (by decide),
   dayOrdinal_matches_spec.2.2.2.2.2 25 (by decide) (by decide)⟩

/- ------------------------------------------------------------------
   weather_service.py: WEATHER_CODES and the description lookup
   (lines 16-45 and 74-78)
   ------------------------------------------------------------------ -/

/-- The `WEATHER_CODES` table of WeatherService, entry for entry. -/
def WEATHER_CODES : List (Int × String) :=
  [(0, "Clear sky"), (1, "Mainly clear"), (2, "Partly cloudy"),
   (3, "Overcast"), (45, "Fog"), (48, "Depositing rime fog"),
   (51, "Light drizzle"), (53, "Moderate drizzle"), (55, "Dense drizzle"),
   (56, "Light freezing drizzle"), (57, "Dense freezing drizzle"),
   (61, "Slight rain"), (63, "Moderate rain"), (65, "Heavy rain"),
   (66, "Light freezing rain"), (67, "Heavy freezing rain"),
   (71, "Slight snow fall"), (73, "Moderate snow fall"),
   (75, "Heavy snow fall"), (77, "Snow grains"),
   (80, "Slight rain showers"), (81, "Moderate rain showers"),
   (82, "Violent rain showers"), (85, "Slight snow showers"),
   (86, "Heavy snow showers"), (95, "Thunderstorm"),
   (96, "Thunderstorm with slight hail"),
   (99, "Thunderstorm with heavy hail")]

/-- Embedding of the lookup in `get_current_weather`:
`self.WEATHER_CODES.get(weather_code, "Unknown")`, where
`weather_code = current.get("weather_code")` may itself be absent
(Python `None`, modelled by the `none` case). -/
def weatherCodeDescription (code : Option Int) : String :=
  match code with
  | none => "Unknown"
  | some k => (WEATHER_CODES.lookup k).getD "Unknown"

theorem lookup_eq_none_of_key_not_mem {α β : Type} [BEq α] [LawfulBEq α]
    (k : α) (l : List (α × β)) (h : k ∉ l.map Prod.fst) :
    l.lookup k = none := by
  induction l with
  | nil => rfl
  | cons a t ih =>
    simp only [List.map_cons, List.mem_cons] at h
    push_neg at h
    obtain ⟨hne, hmem⟩ := h
    obtain ⟨a1, a2⟩ := a
    simp only [List.lookup]
    have : (k == a1) = false := beq_false_of_ne hne
    rw [this]
    exact ih hmem

theorem lookup_eq_some_of_mem_nodupkeys {α β : Type} [BEq α] [LawfulBEq α]
    (k : α) (d : β) (l : List (α × β)) (hnd : (l.map Prod.fst).Nodup)
    (h : (k, d) ∈ l) : l.lookup k = some d := by
  induction l with
  | nil => exact absurd h (List.not_mem_nil _)
  | cons a t ih =>
    simp only [List.map_cons, List.nodup_cons] at hnd
    obtain ⟨hka, hnd2⟩ := hnd
    obtain ⟨a1, a2⟩ := a
    rcases List.mem_cons.mp h with heq | hmem
    · obtain ⟨h1, h2⟩ := Prod.mk.injEq .. ▸ heq
      subst h1; subst h2
      simp [List.lookup]
    · have hne : (k == a1) = false := by
        refine beq_false_of_ne ?_
        intro hkeq
        subst hkeq
        exact hka (List.mem_map.mpr ⟨(k, d), hmem, rfl⟩)
      simp only [List.lookup, hne]
      exact ih hnd2 hmem

/-- C5: the weather-code lookup is total: a code present in the
`WEATHER_CODES` table maps to that table entry, any absent code
(including a missing code, Python `None`) maps to the sentinel
"Unknown"; being a total Lean function, it can never raise. -/
theorem weatherCodeDescription_total :
    (∀ k d, (k, d) ∈ WEATHER_CODES → weatherCodeDescription (some k) = d) ∧
      (∀ k : Int, k ∉ WEATHER_CODES.map Prod.fst →
        weatherCodeDescription (some k) = "Unknown") ∧
      weatherCodeDescription none = "Unknown" := by
  refine ⟨?_, ?_, rfl⟩
  · intro k d h
    have hnd : (WEATHER_CODES.map Prod.fst).Nodup := by decide
    have hl := lookup_eq_some_of_mem_nodupkeys k d WEATHER_CODES hnd h
    simp [weatherCodeDescription, hl]
  · intro k h
    have hl := lookup_eq_none_of_key_not_mem k WEATHER_CODES h
    simp [weatherCodeDescription, hl]

/-- Witness for C5: code 45 is in the table and maps to "Fog"; code 7 is
not in the table and maps to "Unknown". -/
theorem weatherCodeDescription_total_witness :
    weatherCodeDescription (some 45) = "Fog" ∧
      weatherCodeDescription (some 7) = "Unknown" :=
  ⟨weatherCodeDescription_total.1 45 "Fog" (by decide),
   weatherCodeDescription_total.2.1 7 (by decide)⟩

/- ------------------------------------------------------------------
   test_image_enhancement.py: apply_enhancement (lines 55-124),
   enhancement_presets.py: get_preset_params (lines 16-122) and
   process_with_presets (lines 125-190)
   ------------------------------------------------------------------ -/

/-- A PIL image: its dimensions and its pixel contents (RGB triples,
indexed by column and row). -/
structure PILImage where
  width : Nat
  height : Nat
  pix : Nat → Nat → Nat × Nat × Nat

/-- The keyword parameters of `apply_enhancement`.  The float factors are
modelled as exact rationals (every preset value is a short decimal, and
the source only compares them against the literal 1.0 before use). -/
structure EnhanceParams where
  sharpness : ℚ
  contrast : ℚ
  brightness : ℚ
  color : ℚ
  upscale_factor : ℚ
  unsharp_mask : Bool
  unsharp_radius : ℚ
  unsharp_percent : Int
  unsharp_threshold : Int

/-- The PIL operations `apply_enhancement` calls.  They live in the
third-party imaging library, so they are parameters of the embedding;
`resizePix` is only the pixel content produced by LANCZOS resampling
(PIL's resize returns exactly the requested dimensions, which the
embedding builds directly). -/
structure PILOps where
  resizePix : PILImage → Nat → Nat → (Nat → Nat → Nat × Nat × Nat)
  enhanceBrightness : PILImage → ℚ → PILImage
  enhanceColor : PILImage → ℚ → PILImage
  enhanceContrast : PILImage → ℚ → PILImage
  enhanceSharpness : PILImage → ℚ → PILImage
  unsharpMaskFilter : PILImage → ℚ → Int → Int → PILImage

/-- `result.resize((new_width, new_height), Image.LANCZOS)`. -/
def pilResize (ops : PILOps) (img : PILImage) (w h : Nat) : PILImage :=
  { width := w, height := h, pix := ops.resizePix img w h }

/-- The brightness/color/contrast/sharpness/unsharp-mask chain of
`apply_enhancement` after the optional upscale, guard for guard from the
source (each enhancer runs only when its factor differs from 1.0). -/
def enhanceTail (ops : PILOps) (p : EnhanceParams) (result0 : PILImage) :
    PILImage :=
  let r1 := if p.brightness ≠ 1 then ops.enhanceBrightness result0 p.brightness
            else result0
  let r2 := if p.color ≠ 1 then ops.enhanceColor r1 p.color else r1
  let r3 := if p.contrast ≠ 1 then ops.enhanceContrast r2 p.contrast else r2
  let r4 := if p.sharpness ≠ 1 then ops.enhanceSharpness r3 p.sharpness else r3
  if p.unsharp_mask then
    ops.unsharpMaskFilter r4 p.unsharp_radius p.unsharp_percent
      p.unsharp_threshold
  else r4

/-- Embedding of `apply_enhancement`.  `image.copy()` produces a
bitwise-identical image, which in this model is the image itself.
`int(result.width * upscale_factor)` truncates a non-negative product,
i.e. takes its floor. -/
def apply_enhancement (ops : PILOps) (image : PILImage) (p : EnhanceParams) :
    PILImage :=
  let result := image
  let result :=
    if p.upscale_factor > 1 then
      pilResize ops result (⌊(result.width : ℚ) * p.upscale_factor⌋.toNat)
        (⌊(result.height : ℚ) * p.upscale_factor⌋.toNat)
    else result
  enhanceTail ops p result

/-- The preset table of `get_preset_params`, in the source's insertion
order (Python dictionaries iterate in insertion order). -/
def presetList : List (String × EnhanceParams) :=
  [("original",
    { sharpness := 1, contrast := 1, brightness := 1, color := 1,
      upscale_factor := 1, unsharp_mask := false, unsharp_radius := 0,
      unsharp_percent := 0, unsharp_threshold := 0 }),
   ("mild",
    { sharpness := 13/10, contrast := 11/10, brightness := 1,
      color := 21/20, upscale_factor := 1, unsharp_mask := false,
      unsharp_radius := 2, unsharp_percent := 150, unsharp_threshold := 3 }),
   ("medium",
    { sharpness := 3/2, contrast := 6/5, brightness := 21/20,
      color := 11/10, upscale_factor := 1, unsharp_mask := true,
      unsharp_radius := 2, unsharp_percent := 150, unsharp_threshold := 3 }),
   ("strong",
    { sharpness := 2, contrast := 13/10, brightness := 11/10,
      color := 6/5, upscale_factor := 1, unsharp_mask := true,
      unsharp_radius := 3, unsharp_percent := 200, unsharp_threshold := 2 }),
   ("tv-optimized",
    { sharpness := 17/10, contrast := 5/4, brightness := 21/20,
      color := 23/20, upscale_factor := 6/5, unsharp_mask := true,
      unsharp_radius := 2, unsharp_percent := 180, unsharp_threshold := 3 }),
   ("sharp-only",
    { sharpness := 2, contrast := 1, brightness := 1, color := 1,
      upscale_factor := 1, unsharp_mask := false, unsharp_radius := 2,
      unsharp_percent := 150, unsharp_threshold := 3 }),
   ("unsharp-only",
    { sharpness := 1, contrast := 1, brightness := 1, color := 1,
      upscale_factor := 1, unsharp_mask := true, unsharp_radius := 2,
      unsharp_percent := 200, unsharp_threshold := 3 }),
   ("upscale-only",
    { sharpness := 1, contrast := 1, brightness := 1, color := 1,
      upscale_factor := 3/2, unsharp_mask := false, unsharp_radius := 2,
      unsharp_percent := 150, unsharp_threshold := 3 }),
   ("upscale-sharp",
    { sharpness := 3/2, contrast := 1, brightness := 1, color := 1,
      upscale_factor := 2, unsharp_mask := true, unsharp_radius := 2,
      unsharp_percent := 200, unsharp_threshold := 3 })]

/-- `get_preset_params()[name]` as a partial lookup. -/
def get_preset_params (name : String) : Option EnhanceParams :=
  presetList.lookup name

/-- C4: applying `apply_enhancement` with the parameters of the
"original" preset (all factors 1.0, no unsharp mask) is the identity on
images, for every choice of underlying PIL operations: every conditional
enhancement step is skipped, and the copy is bitwise-equal to the
input. -/
theorem original_preset_identity :
    ∃ p, get_preset_params "original" = some p ∧
      ∀ (ops : PILOps) (img : PILImage), apply_enhancement ops img p = img := by
  refine ⟨_, rfl, ?_⟩
  intro ops img
  rfl

/-- The PIL enhancement and unsharp-mask operations return an image of
the same dimensions as their input (the PIL contract the embedding
assumes where the source relies on it). -/
structure SizePreserving (ops : PILOps) : Prop where
  brightW : ∀ img f, (ops.enhanceBrightness img f).width = img.width
  brightH : ∀ img f, (ops.enhanceBrightness img f).height = img.height
  colorW : ∀ img f, (ops.enhanceColor img f).width = img.width
  colorH : ∀ img f, (ops.enhanceColor img f).height = img.height
  contrastW : ∀ img f, (ops.enhanceContrast img f).width = img.width
  contrastH : ∀ img f, (ops.enhanceContrast img f).height = img.height
  sharpW : ∀ img f, (ops.enhanceSharpness img f).width = img.width
  sharpH : ∀ img f, (ops.enhanceSharpness img f).height = img.height
  unsharpW : ∀ img r p t, (ops.unsharpMaskFilter img r p t).width = img.width
  unsharpH : ∀ img r p t, (ops.unsharpMaskFilter img r p t).height = img.height

theorem enhanceTail_width (ops : PILOps) (h : SizePreserving ops)
    (p : EnhanceParams) (img : PILImage) :
    (enhanceTail ops p img).width = img.width := by
  unfold enhanceTail
  split_ifs <;>
    simp [h.brightW, h.colorW, h.contrastW, h.sharpW, h.unsharpW]

theorem enhanceTail_height (ops : PILOps) (h : SizePreserving ops)
    (p : EnhanceParams) (img : PILImage) :
    (enhanceTail ops p img).height = img.height := by
  unfold enhanceTail
  split_ifs <;>
    simp [h.brightH, h.colorH, h.contrastH, h.sharpH, h.unsharpH]

/-- C9: under size-preserving PIL enhancement operations,
`apply_enhancement` keeps the input dimensions whenever
`upscale_factor <= 1.0` (the resize branch is not taken), and produces
floor(width * factor) x floor(height * factor) whenever
`upscale_factor > 1.0`. -/
theorem apply_enhancement_dims (ops : PILOps) (h : SizePreserving ops)
    (img : PILImage) (p : EnhanceParams) :
    (p.upscale_factor ≤ 1 →
      (apply_enhancement ops img p).width = img.width ∧
        (apply_enhancement ops img p).height = img.height) ∧
      (1 < p.upscale_factor →
        (apply_enhancement ops img p).width =
            ⌊(img.width : ℚ) * p.upscale_factor⌋.toNat ∧
          (apply_enhancement ops img p).height =
            ⌊(img.height : ℚ) * p.upscale_factor⌋.toNat) := by
  constructor
  · intro hle
    have hnot : ¬ (p.upscale_factor > 1) := not_lt.mpr hle
    simp only [apply_enhancement, if_neg hnot]
    exact ⟨enhanceTail_width ops h p img, enhanceTail_height ops h p img⟩
  · intro hgt
    simp only [apply_enhancement, if_pos hgt]
    refine ⟨?_, ?_⟩
    · rw [enhanceTail_width ops h p _]
      rfl
    · rw [enhanceTail_height ops h p _]
      rfl



/-- A concrete set of PIL operations (identity pixel transforms), used
only to witness the dimension theorem. -/
def idPILOps : PILOps :=
  { resizePix := fun img _ _ => img.pix,
    enhanceBrightness := fun img _ => img,
    enhanceColor := fun img _ => img,
    enhanceContrast := fun img _ => img,
    enhanceSharpness := fun img _ => img,
    unsharpMaskFilter := fun img _ _ _ => img }

theorem idPILOps_sizePreserving : SizePreserving idPILOps :=
  ⟨fun _ _ => rfl, fun _ _ => rfl, fun _ _ => rfl, fun _ _ => rfl,
   fun _ _ => rfl, fun _ _ => rfl, fun _ _ => rfl, fun _ _ => rfl,
   fun _ _ _ _ => rfl, fun _ _ _ _ => rfl⟩

/-- A concrete 10 x 5 test image. -/
def testImage : PILImage :=
  { width := 10, height := 5, pix := fun _ _ => (0, 0, 0) }

/-- Parameters with a 1.5x upscale. -/
def upscaleTestParams : EnhanceParams :=
  { sharpness := 1, contrast := 1, brightness := 1, color := 1,
    upscale_factor := 3/2, unsharp_mask := false, unsharp_radius := 2,
    unsharp_percent := 150, unsharp_threshold := 3 }

/-- Parameters with a 0.5 (not > 1) upscale factor. -/
def noUpscaleTestParams : EnhanceParams :=
  { sharpness := 3/2, contrast := 6/5, brightness := 1, color := 1,
    upscale_factor := 1/2, unsharp_mask := true, unsharp_radius := 2,
    unsharp_percent := 150, unsharp_threshold := 3 }

/-- Witness for C9: on a 10 x 5 image, a 1.5x upscale yields 15 x 7
(floor of 7.5), and a 0.5 factor leaves 10 x 5 unchanged. -/
theorem apply_enhancement_dims_witness :
    ((apply_enhancement idPILOps testImage upscaleTestParams).width = 15 ∧
      (apply_enhancement idPILOps testImage upscaleTestParams).height = 7) ∧
      ((apply_enhancement idPILOps testImage noUpscaleTestParams).width = 10 ∧
        (apply_enhancement idPILOps testImage noUpscaleTestParams).height = 5) := by
  constructor
  · have h := (apply_enhancement_dims idPILOps idPILOps_sizePreserving
      testImage upscaleTestParams).2 (by norm_num [upscaleTestParams])
    constructor
    · rw [h.1]
      have hv : ((testImage.width : ℚ) * upscaleTestParams.upscale_factor) = 15 := by
        norm_num [testImage, upscaleTestParams]
      rw [hv]
      simp
    · rw [h.2]
      have hv : ((testImage.height : ℚ) * upscaleTestParams.upscale_factor) = 15/2 := by
        norm_num [testImage, upscaleTestParams]
      rw [hv]
      have hf : ⌊(15/2 : ℚ)⌋ = 7 := by
        rw [Int.floor_eq_iff]
        norm_num
      rw [hf]
      rfl
  · have h := (apply_enhancement_dims idPILOps idPILOps_sizePreserving
      testImage noUpscaleTestParams).1 (by norm_num [noUpscaleTestParams])
    exact h

/-- The preset filtering at the top of `process_with_presets`:
when `selected_presets` is truthy (a non-empty list) the preset
dictionary is restricted to the selected names (a dict comprehension,
which keeps insertion order), and then the "original" entry is deleted
if present.  Keys are unique, so deleting the key is removing every
entry named "original". -/
def workingPresets (selected : Option (List String)) :
    List (String × EnhanceParams) :=
  let presets :=
    match selected with
    | none => presetList
    | some [] => presetList          -- an empty list is falsy in Python
    | some names => presetList.filter (fun e => names.contains e.1)
  presets.filter (fun e => e.1 ≠ "original")

/-- The environment of a `process_with_presets` run: the result of
`load_image` and the success of each `save_image` call (keyed by the
output path), plus the PIL operations behind `apply_enhancement`. -/
structure PresetRunEnv where
  loadedImage : Option PILImage
  saveOk : String → Bool
  ops : PILOps

/-- One iteration of the `for name, params in presets.items()` loop:
build the output path `output_dir/name_root_name + ext`, apply the
enhancement, and append the path and preset name to the accumulators
only when `save_image` succeeds. -/
def presetStep (env : PresetRunEnv) (image : PILImage)
    (inputRoot inputExt outputDir : String)
    (acc : List String × List String) (e : String × EnhanceParams) :
    List String × List String :=
  let outputPath := outputDir ++ "/" ++ inputRoot ++ "_" ++ e.1 ++ inputExt
  let enhanced := apply_enhancement env.ops image e.2
  let _ := enhanced.width   -- printed, otherwise unused
  if env.saveOk outputPath then (acc.1 ++ [outputPath], acc.2 ++ [e.1])
  else acc

/-- Embedding of `process_with_presets`.  The input path enters only
through `os.path.splitext(os.path.basename(input_path))`, so the
embedding takes the root and extension directly.  A failed load returns
the bare empty list (`Sum.inl`); otherwise the loop result is returned
as the pair `(enhanced_paths, enhanced_names)` (`Sum.inr`). -/
def process_with_presets (env : PresetRunEnv)
    (inputRoot inputExt outputDir : String)
    (selected : Option (List String)) :
    Sum (List String) (List String × List String) :=
  let presets := workingPresets selected
  match env.loadedImage with
  | none => Sum.inl []
  | some image =>
      Sum.inr (presets.foldl (presetStep env image inputRoot inputExt outputDir)
        ([], []))

theorem presetFold_invariant (env : PresetRunEnv) (image : PILImage)
    (inputRoot inputExt outputDir : String) :
    ∀ (l : List (String × EnhanceParams)) (acc : List String × List String),
      acc.1.length = acc.2.length → "original" ∉ acc.2 →
      (∀ e ∈ l, e.1 ≠ "original") →
      (l.foldl (presetStep env image inputRoot inputExt outputDir) acc).1.length =
          (l.foldl (presetStep env image inputRoot inputExt outputDir) acc).2.length ∧
        "original" ∉
          (l.foldl (presetStep env image inputRoot inputExt outputDir) acc).2 := by
  intro l
  induction l with
  | nil => intro acc h1 h2 _; exact ⟨h1, h2⟩
  | cons e t ih =>
    intro acc h1 h2 hl
    have he : e.1 ≠ "original" := hl e (List.mem_cons_self e t)
    have ht : ∀ x ∈ t, x.1 ≠ "original" := fun x hx => hl x (List.mem_cons_of_mem e hx)
    simp only [List.foldl_cons]
    apply ih
    · simp only [presetStep]
      split_ifs with hs
      · simp [h1]
      · exact h1
    · simp only [presetStep]
      split_ifs with hs
      · simp only [List.mem_append, List.mem_singleton]
        rintro (hin | heq)
        · exact h2 hin
        · exact he heq.symm
      · exact h2
    · exact ht

theorem workingPresets_no_original (selected : Option (List String)) :
    "original" ∉ (workingPresets selected).map Prod.fst := by
  intro hmem
  obtain ⟨e, he, hfst⟩ := List.mem_map.mp hmem
  unfold workingPresets at he
  have := (List.mem_filter.mp he).2
  rw [hfst] at this
  simp at this

/-- C10: `process_with_presets` never applies the "original" preset (it
is removed from the working preset set even when `selected_presets`
lists it, so no enhanced output is produced for it); on a failed image
load it returns the bare empty list rather than a pair; and on a
successful load it returns a pair of equal-length lists of output paths
and preset names, with "original" never among the names. -/
theorem process_with_presets_spec :
    (∀ selected, "original" ∉ (workingPresets selected).map Prod.fst) ∧
      (∀ env inputRoot inputExt outputDir selected,
        env.loadedImage = none →
        process_with_presets env inputRoot inputExt outputDir selected =
          Sum.inl []) ∧
      (∀ env inputRoot inputExt outputDir selected img,
        env.loadedImage = some img →
        ∃ paths names,
          process_with_presets env inputRoot inputExt outputDir selected =
            Sum.inr (paths, names) ∧
          paths.length = names.length ∧ "original" ∉ names) := by
  refine ⟨workingPresets_no_original, ?_, ?_⟩
  · intro env inputRoot inputExt outputDir selected hnone
    simp [process_with_presets, hnone]
  · intro env inputRoot inputExt outputDir selected img hsome
    have hfold := presetFold_invariant env img inputRoot inputExt outputDir
      (workingPresets selected) ([], []) rfl (List.not_mem_nil _) ?hno
    case hno =>
      intro e he
      have := (List.mem_filter.mp (by unfold workingPresets at he; exact he)).2
      simpa using this
    refine ⟨_, _, ?_, hfold.1, hfold.2⟩
    simp [process_with_presets, hsome]

/-- An environment whose image load fails. -/
def loadFailEnv : PresetRunEnv :=
  { loadedImage := none, saveOk := fun _ => true, ops := idPILOps }

/-- Witness for C10: with a failed load the function returns the bare
empty list; and the working preset set never contains "original", even
when it is explicitly selected. -/
theorem process_with_presets_spec_witness :
    process_with_presets loadFailEnv "img" ".jpeg" "enhanced_images" none =
        Sum.inl [] ∧
      "original" ∉ (workingPresets (some ["original", "mild"])).map Prod.fst :=
  ⟨process_with_presets_spec.2.1 loadFailEnv "img" ".jpeg" "enhanced_images"
      none rfl,
   process_with_presets_spec.1 (some ["original", "mild"])⟩

/- ------------------------------------------------------------------
   upload_image.py: the retry decorator (lines 40-86)
   ------------------------------------------------------------------ -/

/-- Outcome of one invocation of a function wrapped by `retry`:
a returned value, an exception of one of the allowed classes, or an
exception outside `allowed_exceptions` (which the decorator does not
catch). -/
inductive AttemptResult (α E : Type) where
  | ok (a : α)
  | exc (e : E)
  | excOther (e : E)
deriving Repr

/-- Observable outcome of a `retry`-wrapped call: the value or the
propagated exception, together with the number of invocations of the
wrapped function and the list of sleep durations in order.
`assertUnreachable` is the `assert False` after the loop, reachable only
when `max_attempts` is not positive. -/
inductive RetryOut (α E : Type) where
  | returned (a : α) (calls : Nat) (sleeps : List ℚ)
  | raised (e : E) (calls : Nat) (sleeps : List ℚ)
  | assertUnreachable (calls : Nat) (sleeps : List ℚ)
deriving Repr

/-- Number of invocations of the wrapped function. -/
def RetryOut.calls {α E : Type} : RetryOut α E → Nat
  | RetryOut.returned _ c _ => c
  | RetryOut.raised _ c _ => c
  | RetryOut.assertUnreachable c _ => c

/-- The `while attempts < max_attempts` loop of the retry wrapper.
`remaining` is `max_attempts - attempts` (the loop guard), `k` the number
of invocations so far, `current` the current delay, `sleeps` the sleeps
performed so far.  The k-th invocation outcome is `f k`.  On an allowed
exception the wrapper increments `attempts`, re-raises when
`attempts >= max_attempts`, and otherwise sleeps `current_delay` and
multiplies it by the backoff factor. -/
def retryAux {α E : Type} (f : Nat → AttemptResult α E) (backoff : ℚ) :
    Nat → Nat → ℚ → List ℚ → RetryOut α E
  | 0, k, _, sleeps => RetryOut.assertUnreachable k sleeps
  | remaining + 1, k, current, sleeps =>
    match f k with
    | AttemptResult.ok a => RetryOut.returned a (k + 1) sleeps
    | AttemptResult.excOther e => RetryOut.raised e (k + 1) sleeps
    | AttemptResult.exc e =>
      if remaining = 0 then RetryOut.raised e (k + 1) sleeps
      else retryAux f backoff remaining (k + 1) (current * backoff)
        (sleeps ++ [current])

/-- `retry(max_attempts, delay, backoff_factor)(func)(...)`. -/
def retryCall {α E : Type} (max : Nat) (delay backoff : ℚ)
    (f : Nat → AttemptResult α E) : RetryOut α E :=
  retryAux f backoff max 0 delay []

theorem retryAux_calls_le {α E : Type} (f : Nat → AttemptResult α E)
    (backoff : ℚ) :
    ∀ (remaining k : Nat) (current : ℚ) (sleeps : List ℚ),
      (retryAux f backoff remaining k current sleeps).calls ≤ k + remaining := by
  intro remaining
  induction remaining with
  | zero => intro k c s; simp [retryAux, RetryOut.calls]
  | succ r ih =>
    intro k c s
    unfold retryAux
    match hf : f k with
    | AttemptResult.ok a => simp [RetryOut.calls]
    | AttemptResult.excOther e => simp [RetryOut.calls]
    | AttemptResult.exc e =>
      simp only
      split_ifs with hr
      · simp [RetryOut.calls]
      · calc (retryAux f backoff r (k + 1) (c * backoff) (s ++ [c])).calls
            ≤ (k + 1) + r := ih (k + 1) (c * backoff) (s ++ [c])
          _ ≤ k + (r + 1) := by omega

theorem geomList_succ (c b : ℚ) (n : Nat) :
    (List.ofFn fun i : Fin (n + 1) => c * b ^ (i : ℕ)) =
      c :: List.ofFn fun i : Fin n => (c * b) * b ^ (i : ℕ) := by
  rw [List.ofFn_succ]
  simp only [Fin.val_zero, pow_zero, mul_one, Fin.val_succ]
  congr 1
  exact congrArg List.ofFn (funext fun i => by rw [pow_succ]; ring)

theorem retryAux_first_success {α E : Type} (f : Nat → AttemptResult α E)
    (backoff : ℚ) (a : α) :
    ∀ (j remaining k : Nat) (current : ℚ) (sleeps : List ℚ),
      j < remaining →
      (∀ i, i < j → ∃ e, f (k + i) = AttemptResult.exc e) →
      f (k + j) = AttemptResult.ok a →
      retryAux f backoff remaining k current sleeps =
        RetryOut.returned a (k + j + 1)
          (sleeps ++ List.ofFn fun i : Fin j => current * backoff ^ (i : ℕ)) := by
  intro j
  induction j with
  | zero =>
    intro remaining k current sleeps hlt _ hok
    obtain ⟨r, rfl⟩ : ∃ r, remaining = r + 1 := ⟨remaining - 1, by omega⟩
    simp only [Nat.add_zero] at hok
    unfold retryAux
    rw [hok]
    simp
  | succ j ih =>
    intro remaining k current sleeps hlt hexc hok
    obtain ⟨r, rfl⟩ : ∃ r, remaining = r + 1 := ⟨remaining - 1, by omega⟩
    obtain ⟨e0, he0⟩ := hexc 0 (Nat.succ_pos j)
    simp only [Nat.add_zero] at he0
    have hrne : ¬ (r = 0) := by omega
    unfold retryAux
    rw [he0]
    simp only [hrne, if_false]
    have hexc2 : ∀ i, i < j → ∃ e, f (k + 1 + i) = AttemptResult.exc e := by
      intro i hi
      obtain ⟨e, he⟩ := hexc (i + 1) (by omega)
      exact ⟨e, by rw [show k + 1 + i = k + (i + 1) by omega]; exact he⟩
    have hok2 : f (k + 1 + j) = AttemptResult.ok a := by
      rw [show k + 1 + j = k + (j + 1) by omega]; exact hok
    rw [ih r (k + 1) (current * backoff) (sleeps ++ [current])
      (by omega) hexc2 hok2]
    rw [geomList_succ]
    simp only [List.append_assoc, List.singleton_append]
    rw [show k + 1 + j + 1 = k + (j + 1) + 1 by omega]

theorem retryAux_all_exc {α E : Type} (f : Nat → AttemptResult α E)
    (backoff : ℚ) (e : Nat → E) :
    ∀ (remaining k : Nat) (current : ℚ) (sleeps : List ℚ),
      1 ≤ remaining →
      (∀ i, i < remaining → f (k + i) = AttemptResult.exc (e (k + i))) →
      retryAux f backoff remaining k current sleeps =
        RetryOut.raised (e (k + remaining - 1)) (k + remaining)
          (sleeps ++
            List.ofFn fun i : Fin (remaining - 1) =>
              current * backoff ^ (i : ℕ)) := by
  intro remaining
  induction remaining with
  | zero => intro k c s h; omega
  | succ r ih =>
    intro k current sleeps _ hexc
    have he0 := hexc 0 (Nat.succ_pos r)
    simp only [Nat.add_zero] at he0
    unfold retryAux
    rw [he0]
    by_cases hr : r = 0
    · subst hr
      simp
    · simp only [hr, if_false]
      obtain ⟨r2, rfl⟩ : ∃ r2, r = r2 + 1 := ⟨r - 1, by omega⟩
      have hexc2 : ∀ i, i < r2 + 1 →
          f (k + 1 + i) = AttemptResult.exc (e (k + 1 + i)) := by
        intro i hi
        rw [show k + 1 + i = k + (i + 1) by omega]
        exact hexc (i + 1) (by omega)
      rw [ih (k + 1) (current * backoff) (sleeps ++ [current])
        (by omega) hexc2]
      rw [show k + 1 + (r2 + 1) - 1 = k + (r2 + 1 + 1) - 1 by omega,
        show k + 1 + (r2 + 1) = k + (r2 + 1 + 1) by omega]
      congr 1
      show (sleeps ++ [current]) ++
          (List.ofFn fun i : Fin r2 => (current * backoff) * backoff ^ (i : ℕ)) =
        sleeps ++ List.ofFn fun i : Fin (r2 + 1) => current * backoff ^ (i : ℕ)
      rw [geomList_succ]
      simp [List.append_assoc]

/-- C7: for max_attempts >= 1, a retry-wrapped function is invoked at
most max_attempts times; the wrapper returns the wrapped value as soon
as an invocation succeeds (after j failed attempts the value of attempt
j+1 is returned after exactly j+1 invocations); and when every
invocation raises an allowed exception it re-raises the last attempt's
exception after exactly max_attempts invocations, having slept before
attempt k+1 exactly delay * backoff_factor^(k-1): the sleeps list is the
geometric sequence delay * backoff^0, delay * backoff^1, ... -/
theorem retry_behavior {α E : Type} (max : Nat) (delay backoff : ℚ)
    (hmax : 1 ≤ max) :
    (∀ f : Nat → AttemptResult α E,
      (retryCall max delay backoff f).calls ≤ max) ∧
      (∀ (f : Nat → AttemptResult α E) (a : α) (j : Nat), j < max →
        (∀ i, i < j → ∃ e, f i = AttemptResult.exc e) →
        f j = AttemptResult.ok a →
        retryCall max delay backoff f =
          RetryOut.returned a (j + 1)
            (List.ofFn fun i : Fin j => delay * backoff ^ (i : ℕ))) ∧
      (∀ (f : Nat → AttemptResult α E) (e : Nat → E),
        (∀ i, i < max → f i = AttemptResult.exc (e i)) →
        retryCall max delay backoff f =
          RetryOut.raised (e (max - 1)) max
            (List.ofFn fun i : Fin (max - 1) => delay * backoff ^ (i : ℕ))) := by
  refine ⟨?_, ?_, ?_⟩
  · intro f
    have h := retryAux_calls_le f backoff max 0 delay []
    simpa [retryCall] using h
  · intro f a j hj hexc hok
    have h := retryAux_first_success f backoff a j max 0 delay [] hj
      (by simpa using hexc) (by simpa using hok)
    simpa [retryCall] using h
  · intro f e hexc
    have h := retryAux_all_exc f backoff e max 0 delay [] hmax
      (by simpa using hexc)
    simpa [retryCall] using h

/-- A wrapped function that fails once with an allowed exception and
then succeeds. -/
def failOnceThenOk : Nat → AttemptResult Nat Unit :=
  fun k => if k = 0 then AttemptResult.exc () else AttemptResult.ok 42

/-- A wrapped function that always fails with an allowed exception. -/
def alwaysFail : Nat → AttemptResult Nat Unit :=
  fun _ => AttemptResult.exc ()

/-- Witness for C7: with max_attempts = 3, delay = 5, backoff = 2, a
function failing once returns 42 after 2 invocations and one sleep of 5,
and a function that always fails re-raises after exactly 3 invocations
with sleeps 5 and 10. -/
theorem retry_behavior_witness :
    retryCall 3 (5 : ℚ) 2 failOnceThenOk =
        RetryOut.returned 42 2 (List.ofFn fun i : Fin 1 => 5 * 2 ^ (i : ℕ)) ∧
      retryCall 3 (5 : ℚ) 2 alwaysFail =
        RetryOut.raised () 3 (List.ofFn fun i : Fin 2 => 5 * 2 ^ (i : ℕ)) :=
  ⟨(retry_behavior 3 5 2 (by decide)).2.1 failOnceThenOk 42 1 (by decide)
      (fun i hi => by
        have h0 : i = 0 := Nat.lt_one_iff.mp hi
        subst h0
        exact ⟨(), rfl⟩) rfl,
    (retry_behavior 3 5 2 (by decide)).2.2 alwaysFail (fun _ => ())
      (fun i _ => rfl)⟩

/- ------------------------------------------------------------------
   upload_image.py: TVImageUploader.set_active_art (lines 688-976)
   ------------------------------------------------------------------ -/

/-- Outcome of a call into the samsungtvws library: a raised exception
or a returned value. -/
inductive CallOut (α : Type) where
  | raises
  | returns (a : α)
deriving Repr, DecidableEq

/-- The activation strategies named by the claim, in the order the
source tries them.  (Between `listLookup` and `storedFile` the source
also tries a direct REST call, which selects the same uploaded id; it is
not one of the four named strategies and emits no trace entry.) -/
inductive SelectStrategy where
  | uploadedId
  | listLookup
  | storedFile
  | blindResend
deriving Repr, DecidableEq

/-- Environment of one `set_active_art` call: the outcome of every
library call it can make.  The art-mode switching block (set_artmode /
KEY_ART attempts) and the matte-removal calls only log and never return
from the function, so they need no fields.  A content-list fetch that
raises, that finds no fetch method, or that returns an empty list all
lead to the same "no content available" path, so fetches are modelled as
the list obtained (empty for all those cases). -/
structure ArtEnv where
  /-- id read from last_uploaded_id.txt / last_content_id.txt;
  `none` when no file exists or reading raised.  An empty string is
  falsy in Python, exactly like `None`. -/
  storedId : Option String
  tvAvailable : Bool
  reconnectOk : Bool
  contentFetch1 : List String
  contentFetch2 : List String
  select1 : CallOut Bool
  select2 : CallOut Bool
  hasRest : Bool
  restRaises : Bool
  select4Raises : Bool

/-- The tail of `set_active_art` after Approach 2: the direct REST call
(Approach 3), the stored-id selection (Approach 4), and the final
repeated blind resend, which always ends in `return False`.  `tr` is the
trace of strategies already attempted. -/
def setActiveArtTail (env : ArtEnv) (cid : String)
    (tr : List (SelectStrategy × Bool)) :
    Bool × List (SelectStrategy × Bool) :=
  if env.hasRest ∧ ¬ env.restRaises then (true, tr)
  else if env.storedId.getD "" ≠ "" ∧ env.storedId.getD "" ≠ cid then
    if env.select4Raises then
      (false, tr ++ [(SelectStrategy.storedFile, false),
        (SelectStrategy.blindResend, false)])
    else (true, tr ++ [(SelectStrategy.storedFile, true)])
  else (false, tr ++ [(SelectStrategy.blindResend, false)])

/-- Embedding of `set_active_art`, returning its boolean result together
with the trace of selection strategies attempted, each tagged with
whether it succeeded.  Control flow step for step from the source:
reconnect failure returns False immediately; Approach 1 selects the
uploaded id (success returns True, a raise or a False return falls
through); Approach 2 re-uses or re-fetches the content list and, when it
is non-empty, selects the uploaded id if listed, else the truthy stored
id if listed, else the first entry; the rest is `setActiveArtTail`. -/
def set_active_art (env : ArtEnv) (cid : String) :
    Bool × List (SelectStrategy × Bool) :=
  if ¬ env.tvAvailable ∧ ¬ env.reconnectOk then (false, [])
  else
    -- Approach 1
    if env.select1 = CallOut.returns true then
      (true, [(SelectStrategy.uploadedId, true)])
    else
      -- Approach 2
      let contentList :=
        if env.contentFetch1 = [] then env.contentFetch2 else env.contentFetch1
      if contentList ≠ [] then
        let target :=
          if contentList.contains cid then cid
          else if env.storedId.getD "" ≠ "" ∧
              contentList.contains (env.storedId.getD "") then
            env.storedId.getD ""
          else contentList.headD ""
        let _ := target
        if env.select2 = CallOut.returns true then
          (true, [(SelectStrategy.uploadedId, false),
            (SelectStrategy.listLookup, true)])
        else setActiveArtTail env cid
          [(SelectStrategy.uploadedId, false), (SelectStrategy.listLookup, false)]
      else setActiveArtTail env cid [(SelectStrategy.uploadedId, false)]

/-- The ordering property of a strategy trace: an order-preserving
subsequence of the four strategies, with every entry before the last
a failure. -/
abbrev TraceOK (l : List (SelectStrategy × Bool)) : Prop :=
  (l.map Prod.fst).Sublist
      [SelectStrategy.uploadedId, SelectStrategy.listLookup,
        SelectStrategy.storedFile, SelectStrategy.blindResend] ∧
    ∀ e ∈ l.dropLast, e.2 = false

/-- C6: the selection strategies of `set_active_art` are attempted in
the order uploaded-id, content-list lookup, stored-file id, blind
resend (the attempted subset is always an order-preserving subsequence
of that list), and every strategy attempted before the last one in the
trace had failed: a later strategy is reached only after each earlier
attempted strategy failed. -/
theorem set_active_art_strategy_order (env : ArtEnv) (cid : String) :
    ((set_active_art env cid).2.map Prod.fst).Sublist
        [SelectStrategy.uploadedId, SelectStrategy.listLookup,
          SelectStrategy.storedFile, SelectStrategy.blindResend] ∧
      ∀ e ∈ (set_active_art env cid).2.dropLast, e.2 = false := by
  have h : TraceOK (set_active_art env cid).2 := by
    simp only [set_active_art, setActiveArtTail]
    split_ifs <;> decide
  exact ⟨h.1, h.2⟩

/-- An environment in which every selection strategy is applicable and
fails. -/
def allFailArtEnv : ArtEnv :=
  { storedId := some "old", tvAvailable := true, reconnectOk := true,
    contentFetch1 := ["a", "b"], contentFetch2 := [],
    select1 := CallOut.raises, select2 := CallOut.returns false,
    hasRest := true, restRaises := true, select4Raises := true }

/-- Witness for C6: in the all-failing environment the trace is the full
ordered strategy sequence, and a non-final entry is a failure. -/
theorem set_active_art_strategy_order_witness :
    ((set_active_art allFailArtEnv "new").2.map Prod.fst).Sublist
        [SelectStrategy.uploadedId, SelectStrategy.listLookup,
          SelectStrategy.storedFile, SelectStrategy.blindResend] ∧
      ((SelectStrategy.storedFile, false) : SelectStrategy × Bool).2 = false :=
  ⟨(set_active_art_strategy_order allFailArtEnv "new").1,
   (set_active_art_strategy_order allFailArtEnv "new").2
      (SelectStrategy.storedFile, false) (by decide)⟩

/- ------------------------------------------------------------------
   main.py: DailyArtApp.run (lines 156-463), DailyArtApp.__init__
   (lines 50-54), generate_image.py ImageGenerator.__init__
   (lines 206-215)
   ------------------------------------------------------------------ -/

/-- Environment of one `DailyArtApp.run` invocation: the outcome of each
external step.  The skip-upload optimisation block, the content-id file
write, the matte removal and the debug dumps only log (their exceptions
are caught locally), so they need no fields. -/
structure RunEnv where
  /-- `TVImageUploader(self.tv_ip)` raising (e.g. ConnectionError after
  its connection retries); the exception reaches the outer handler. -/
  uploaderInitRaises : Bool
  /-- `custom_image and os.path.exists(custom_image)`. -/
  customImageExists : Bool
  /-- `self.image_generator.generate_image(...)` result. -/
  generateResult : Option String
  /-- `self.enhance_image(...)` result (it catches internally and
  returns None on failure). -/
  enhanceResult : Option String
  /-- success flag of `upscale_image(image_path)`. -/
  upscaleOk : Bool
  upscaledPath : String
  /-- the socket connectivity check raising (then the code proceeds). -/
  connectivityRaises : Bool
  /-- `connect_ex((tv_ip, 8002)) == 0`. -/
  tvReachable : Bool
  /-- `tv_uploader.tv.art().upload(...)`: raises, returns a falsy
  content id, or returns a content id. -/
  uploadOutcome : CallOut (Option String)
  /-- first `tv_uploader.set_active_art(content_id)` call. -/
  setActive1 : CallOut Bool
  /-- the retry `set_active_art` call after a reported failure. -/
  setActive2 : CallOut Bool

/-- Embedding of `DailyArtApp.run`.  Returns the boolean result.
Control flow from the source: the whole body is inside a try whose
handler returns False; generation failure returns False; enhancement and
upscale failures only log and the previous image path is used;
skip_upload returns True; an unreachable TV returns True; the upload
try-block returns False only when the upload call returns a falsy
content id, returns True when anything inside it raises (handler at the
end of the block), and otherwise runs the set_active_art attempts, whose
failure or exception is logged, and returns True. -/
def DailyArtApp.run (env : RunEnv) (enhancementPreset : Option String)
    (skipUpload upscale : Bool) : Bool :=
  if ¬ skipUpload ∧ env.uploaderInitRaises then false
  else
    -- Step 1: get or generate an image
    match (if env.customImageExists then some "custom"
           else env.generateResult) with
    | none => false
    | some imagePath =>
      -- Step 2: enhancement (non-fatal on failure)
      let imagePath :=
        if enhancementPreset.isSome then
          (env.enhanceResult).getD imagePath
        else imagePath
      -- Step 3: upscale (non-fatal on failure)
      let imagePath :=
        if upscale then
          if env.upscaleOk then env.upscaledPath else imagePath
        else imagePath
      let _ := imagePath
      if skipUpload then true
      else if ¬ env.connectivityRaises ∧ ¬ env.tvReachable then true
      else
        -- Step 4/5: the upload try-block
        match env.uploadOutcome with
        | CallOut.raises => true
        | CallOut.returns none => false
        | CallOut.returns (some _) =>
          -- set_active_art attempts: a success logs, a reported failure
          -- triggers a debug dump and one retry call, and an exception
          -- is caught and logged; every path then cleans up the
          -- intermediate files and reaches `return True`, so the result
          -- does not depend on the observed outcomes
          let _ := env.setActive1
          let _ := env.setActive2
          true

/-- Truthiness of an optional environment string (Python treats both a
missing variable, `None`, and an empty string as falsy). -/
def envTruthy (v : Option String) : Bool := v.getD "" ≠ ""

/-- What happens before `run`: `DailyArtApp.__init__` exits with code 1
when SAMSUNG_TV_IP is falsy, and constructing `ImageGenerator` raises
ValueError when OPENAI_API_KEY is falsy; `main()` does not catch it, so
the process dies immediately (Python exits with code 1 on an unhandled
exception). -/
inductive InitOutcome where
  | exitsOne
  | raisesValueError
  | ok
deriving Repr, DecidableEq

/-- `DailyArtApp.__init__` (the SAMSUNG_TV_IP check, then
`ImageGenerator()` with its OPENAI_API_KEY check). -/
def appInit (tvIp apiKey : Option String) : InitOutcome :=
  if ¬ envTruthy tvIp then InitOutcome.exitsOne
  else if ¬ envTruthy apiKey then InitOutcome.raisesValueError
  else InitOutcome.ok

/-- Counterexample to C2 as stated: a run in which the upscale step
fails and the subsequent upload call returns a falsy content id returns
False, not True - the falsy-content-id check (`if not content_id:
return False`) overrides the claimed unconditional success of runs with
a failed upscale step. -/
def upscaleFailCexEnv : RunEnv :=
  { uploaderInitRaises := false, customImageExists := true,
    generateResult := none, enhanceResult := some "enhanced",
    upscaleOk := false, upscaledPath := "up",
    connectivityRaises := false, tvReachable := true,
    uploadOutcome := CallOut.returns none,
    setActive1 := CallOut.returns true, setActive2 := CallOut.returns true }

theorem run_upscale_fail_not_always_true :
    upscaleFailCexEnv.upscaleOk = false ∧
      DailyArtApp.run upscaleFailCexEnv (some "upscale-sharp") false true =
        false := by
  constructor
  · rfl
  · rfl

/-- C2 amended: downstream failures are non-fatal for `run`, with one
exception the source imposes: a run whose upload call returns a falsy
content id returns False.  Specifically: (1) a run that reaches the
upload block and whose upload or activation raises returns True; (2) a
run whose upload returns a content id returns True even when
set_active_art reports failure (or raises); (3) a run in which the
upscale step fails returns True provided the upload call does not return
a falsy content id; and (4) initialisation succeeds iff both required
configuration values (SAMSUNG_TV_IP and OPENAI_API_KEY) are set, a falsy
one terminating the process immediately (sys.exit(1), or the uncaught
ValueError from ImageGenerator). -/
theorem run_downstream_failures_nonfatal :
    (∀ (env : RunEnv) (preset : Option String) (skip upscale : Bool),
      env.uploaderInitRaises = false →
      (env.customImageExists = true ∨ env.generateResult ≠ none) →
      env.uploadOutcome = CallOut.raises →
      DailyArtApp.run env preset skip upscale = true) ∧
      (∀ (env : RunEnv) (preset : Option String) (skip upscale : Bool)
          (cid : String),
        env.uploaderInitRaises = false →
        (env.customImageExists = true ∨ env.generateResult ≠ none) →
        env.uploadOutcome = CallOut.returns (some cid) →
        (env.setActive1 = CallOut.returns false ∨
          env.setActive1 = CallOut.raises) →
        DailyArtApp.run env preset skip upscale = true) ∧
      (∀ (env : RunEnv) (preset : Option String) (skip : Bool),
        env.uploaderInitRaises = false →
        (env.customImageExists = true ∨ env.generateResult ≠ none) →
        env.upscaleOk = false →
        env.uploadOutcome ≠ CallOut.returns none →
        DailyArtApp.run env preset skip true = true) ∧
      (∀ tvIp apiKey : Option String,
        appInit tvIp apiKey = InitOutcome.ok ↔
          envTruthy tvIp = true ∧ envTruthy apiKey = true) := by
  have himg : ∀ (env : RunEnv),
      (env.customImageExists = true ∨ env.generateResult ≠ none) →
      ∃ p, (if env.customImageExists then some "custom"
            else env.generateResult) = some p := by
    intro env h
    rcases h with hc | hg
    · exact ⟨"custom", by simp [hc]⟩
    · by_cases hc : env.customImageExists
      · exact ⟨"custom", by simp [hc]⟩
      · obtain ⟨p, hp⟩ := Option.ne_none_iff_exists.mp hg
        exact ⟨p, by simp [hc, hp.symm]⟩
  refine ⟨?_, ?_, ?_, ?_⟩
  · intro env preset skip upscale hinit himg2 hupload
    obtain ⟨p, hp⟩ := himg env himg2
    simp [DailyArtApp.run, hinit, hp, hupload]
  · intro env preset skip upscale cid hinit himg2 hupload hsa
    obtain ⟨p, hp⟩ := himg env himg2
    simp [DailyArtApp.run, hinit, hp, hupload]
  · intro env preset skip hinit himg2 hupscale hupload
    obtain ⟨p, hp⟩ := himg env himg2
    rcases hu : env.uploadOutcome with _ | cidOpt
    · simp [DailyArtApp.run, hinit, hp, hu]
    · rcases cidOpt with _ | cid
      · exact absurd hu hupload
      · simp [DailyArtApp.run, hinit, hp, hu]
  · intro tvIp apiKey
    unfold appInit
    split_ifs with h1 h2 <;> simp_all

/-- An environment whose upload returns a content id but whose
set_active_art call raises. -/
def activationRaisesEnv : RunEnv :=
  { uploaderInitRaises := false, customImageExists := true,
    generateResult := none, enhanceResult := some "enhanced",
    upscaleOk := true, upscaledPath := "up",
    connectivityRaises := false, tvReachable := true,
    uploadOutcome := CallOut.returns (some "uploaded-id"),
    setActive1 := CallOut.raises, setActive2 := CallOut.raises }

/-- An environment whose upload call raises. -/
def uploadRaisesEnv : RunEnv :=
  { uploaderInitRaises := false, customImageExists := true,
    generateResult := none, enhanceResult := none,
    upscaleOk := false, upscaledPath := "up",
    connectivityRaises := false, tvReachable := true,
    uploadOutcome := CallOut.raises,
    setActive1 := CallOut.returns false, setActive2 := CallOut.raises }

/-- Witness for the amended C2: a run whose upload raises (after a
failed enhancement and a failed upscale) still returns True; a run whose
upload returns a content id and whose set_active_art call raises still
returns True; and initialisation with both configuration values present
succeeds. -/
theorem run_downstream_failures_nonfatal_witness :
    DailyArtApp.run uploadRaisesEnv (some "upscale-sharp") false true = true ∧
      DailyArtApp.run activationRaisesEnv (some "upscale-sharp") false true =
        true ∧
      appInit (some "192.168.0.2") (some "key") = InitOutcome.ok :=
  ⟨run_downstream_failures_nonfatal.1 uploadRaisesEnv (some "upscale-sharp")
      false true rfl (Or.inl rfl) rfl,
   run_downstream_failures_nonfatal.2.1 activationRaisesEnv
      (some "upscale-sharp") false true "uploaded-id" rfl (Or.inl rfl) rfl
      (Or.inr rfl),
   (run_downstream_failures_nonfatal.2.2.2 (some "192.168.0.2")
      (some "key")).mpr (by constructor <;> decide)⟩

/- ------------------------------------------------------------------
   Exit codes of the CLI entry scripts:
   main.py main (lines 592-680), upscale_image.py main (lines 152-182),
   tv_power.py main (lines 448-540)
   ------------------------------------------------------------------ -/

/-- Exit code of `python main.py` (after argument parsing): 0 for
--list-presets; 1 when SAMSUNG_TV_IP is falsy (sys.exit(1) in
DailyArtApp.__init__) or OPENAI_API_KEY is falsy (the uncaught
ValueError terminates the process, which Python reports as exit
code 1); 0 when run() returns True; sys.exit(1) otherwise. -/
def main_py_exit (listPresets : Bool) (tvIp apiKey : Option String)
    (runResult : Bool) : Nat :=
  if listPresets then 0
  else match appInit tvIp apiKey with
    | InitOutcome.exitsOne => 1
    | InitOutcome.raisesValueError => 1
    | InitOutcome.ok => if runResult then 0 else 1

/-- Exit code of `python upscale_image.py`: 1 unless exactly one
argument is given; then 0 on success and 1 on failure. -/
def upscale_main_exit (argcIsTwo : Bool) (upscaleSucceeded : Bool) : Nat :=
  if ¬ argcIsTwo then 1
  else if upscaleSucceeded then 0 else 1

/-- Outcome of the tv_power controller command. -/
inductive PowerOutcome where
  | success
  | failure
  | connError
  | otherError
deriving Repr, DecidableEq

/-- Exit code of `python tv_power.py` (after argument parsing): 1 when
no TV IP is configured; then 0 when the controller reports success, 3
when it reports failure, 2 on a ConnectionError, 3 on any other
exception - exactly the 0/1/2/3 scheme its own docstring documents. -/
def tv_power_exit (ipConfigured : Bool) (outcome : PowerOutcome) : Nat :=
  if ¬ ipConfigured then 1
  else match outcome with
    | PowerOutcome.success => 0
    | PowerOutcome.failure => 3
    | PowerOutcome.connError => 2
    | PowerOutcome.otherError => 3

/-- Counterexample to C8 as stated: tv_power.py exits with code 3 when
the power command fails (and with 2 on a connection error), so an entry
script does produce an exit code other than 0 and 1. -/
theorem tv_power_exit_code_three :
    tv_power_exit true PowerOutcome.failure = 3 ∧
      tv_power_exit true PowerOutcome.connError = 2 ∧
      (3 : Nat) ≠ 0 ∧ (3 : Nat) ≠ 1 := by
  refine ⟨rfl, rfl, by decide, by decide⟩

/-- C8 amended: main.py and upscale_image.py exit only with 0 (success
or partial success) or 1 (invalid input or unrecoverable failure), but
tv_power.py follows its documented four-code scheme: 0 success, 1
missing TV IP, 2 connection error, 3 operation failure; every entry
script's exit code is at most 3. -/
theorem entry_script_exit_codes :
    (∀ lp tvIp key r, main_py_exit lp tvIp key r = 0 ∨
      main_py_exit lp tvIp key r = 1) ∧
      (∀ a s, upscale_main_exit a s = 0 ∨ upscale_main_exit a s = 1) ∧
      (tv_power_exit true PowerOutcome.success = 0 ∧
        tv_power_exit false PowerOutcome.success = 1 ∧
        tv_power_exit true PowerOutcome.connError = 2 ∧
        tv_power_exit true PowerOutcome.failure = 3 ∧
        tv_power_exit true PowerOutcome.otherError = 3) ∧
      (∀ ip o, tv_power_exit ip o ≤ 3) := by
  refine ⟨?_, ?_, ⟨rfl, rfl, rfl, rfl, rfl⟩, ?_⟩
  · intro lp tvIp key r
    unfold main_py_exit
    rcases h : appInit tvIp key with _ | _ | _ <;> rcases lp <;> rcases r <;>
      simp [h]
  · intro a s
    unfold upscale_main_exit
    split_ifs <;> simp
  · intro ip o
    unfold tv_power_exit
    split_ifs <;> rcases o <;> simp
